import Mathlib

/-!
Shallow embedding of the frame-synchronization core of the Vulkan triangle
application (src/vulkan-triangle/src/TriangleApplication.h and
src/vulkan-triangle/src/TriangleApplication.cpp), together with the pure
swap-chain configuration helpers, and proofs of the specified properties.

Machine integers (uint32_t) are modelled as Nat with explicit reduction
modulo 2^32 where overflow could occur.  Vulkan handles (VkFence) are
modelled as Nat, with 0 playing the role of VK_NULL_HANDLE.
-/

namespace VulkanTriangle

/-- TriangleApplication.h line 29: `const int WIDTH = 800;` -/
def WIDTH : Nat := 800

/-- TriangleApplication.h line 30: `const int HEIGHT = 600;` -/
def HEIGHT : Nat := 600

/-- TriangleApplication.h line 33: `const int MAX_FRAMES_IN_FLIGHT = 2;` -/
def MAX_FRAMES_IN_FLIGHT : Nat := 2

/-- The C constant UINT32_MAX. -/
def UINT32_MAX : Nat := 4294967295

/-! ## Swap-chain image count (TriangleApplication.cpp lines 219-226) -/

/-- TriangleApplication.cpp lines 219-226: the requested swap-chain image
count.  `imageCount = minImageCount + 1` (uint32_t arithmetic), then
`if (maxImageCount > 0 && imageCount > maxImageCount) imageCount = maxImageCount`. -/
def swapChainImageCount (minImageCount maxImageCount : Nat) : Nat :=
  let imageCount := (minImageCount + 1) % 4294967296
  if 0 < maxImageCount ∧ maxImageCount < imageCount then maxImageCount else imageCount

/-! ## Present-mode choice (TriangleApplication.cpp lines 1068-1099) -/

/-- The Vulkan present modes mentioned in the source's documentation comment
(TriangleApplication.cpp lines 1070-1088). -/
inductive VkPresentModeKHR where
  | immediate
  | fifo
  | fifoRelaxed
  | mailbox
deriving DecidableEq

/-- TriangleApplication.cpp lines 1091-1098: scan the available present modes
and return the first one equal to VK_PRESENT_MODE_MAILBOX_KHR; if the loop
finds none, return VK_PRESENT_MODE_FIFO_KHR. -/
def chooseSwapPresentMode : List VkPresentModeKHR → VkPresentModeKHR
  | [] => VkPresentModeKHR.fifo
  | m :: rest =>
      if m = VkPresentModeKHR.mailbox then m else chooseSwapPresentMode rest

/-! ## Extent choice (TriangleApplication.cpp lines 1101-1115) -/

/-- VkExtent2D: a width/height pair of uint32_t. -/
structure VkExtent2D where
  width : Nat
  height : Nat
deriving DecidableEq

/-- The fields of VkSurfaceCapabilitiesKHR read by the application. -/
structure VkSurfaceCapabilitiesKHR where
  minImageCount : Nat
  maxImageCount : Nat
  currentExtent : VkExtent2D
  minImageExtent : VkExtent2D
  maxImageExtent : VkExtent2D
deriving DecidableEq

/-- TriangleApplication.cpp lines 1101-1115: if `currentExtent.width` is not
UINT32_MAX return `currentExtent`; otherwise clamp {WIDTH, HEIGHT} with
`max(minImageExtent, min(maxImageExtent, actualExtent))` componentwise. -/
def chooseSwapExtent (capabilities : VkSurfaceCapabilitiesKHR) : VkExtent2D :=
  if capabilities.currentExtent.width ≠ UINT32_MAX then
    capabilities.currentExtent
  else
    { width := max capabilities.minImageExtent.width
        (min capabilities.maxImageExtent.width WIDTH),
      height := max capabilities.minImageExtent.height
        (min capabilities.maxImageExtent.height HEIGHT) }

/-! ## Surface-format choice (TriangleApplication.cpp lines 1054-1066) -/

/-- The Vulkan enum value VK_FORMAT_B8G8R8A8_SRGB. -/
def VK_FORMAT_B8G8R8A8_SRGB : Nat := 50

/-- The Vulkan enum value VK_COLOR_SPACE_SRGB_NONLINEAR_KHR. -/
def VK_COLOR_SPACE_SRGB_NONLINEAR_KHR : Nat := 0

/-- VkSurfaceFormatKHR: a pixel format paired with a color space, both
modelled by their Vulkan enum codes. -/
structure VkSurfaceFormatKHR where
  format : Nat
  colorSpace : Nat
deriving DecidableEq

/-- The predicate tested by the loop in TriangleApplication.cpp
lines 1057-1059. -/
def isPreferredSurfaceFormat (f : VkSurfaceFormatKHR) : Bool :=
  f.format == VK_FORMAT_B8G8R8A8_SRGB &&
    f.colorSpace == VK_COLOR_SPACE_SRGB_NONLINEAR_KHR

/-- The scan loop of TriangleApplication.cpp lines 1056-1063: return the first
format satisfying the preference test, if any. -/
def findPreferredFormat : List VkSurfaceFormatKHR → Option VkSurfaceFormatKHR
  | [] => none
  | f :: rest =>
      if isPreferredSurfaceFormat f then some f else findPreferredFormat rest

/-- TriangleApplication.cpp lines 1054-1066: prefer 8-bit BGRA with nonlinear
sRGB; otherwise fall back to `availableFormats[0]` (line 1065).  Indexing an
empty vector is undefined, so the fallback is modelled with `head?`. -/
def chooseSwapSurfaceFormat
    (availableFormats : List VkSurfaceFormatKHR) : Option VkSurfaceFormatKHR :=
  match findPreferredFormat availableFormats with
  | some f => some f
  | none => availableFormats.head?

/-! ## Theorems about the pure helpers -/

/-- C5: For every surface-capabilities report, the chosen swapchain image count
equals minImageCount + 1, clamped down to maxImageCount when maxImageCount > 0,
and therefore satisfies minImageCount ≤ count ≤ maxImageCount (unbounded above
when maxImageCount = 0); in particular minImageCount = 1 with maxImageCount = 0
yields a chosen count of 2. -/
theorem swapChainImageCount_spec (minImageCount maxImageCount : Nat)
    (hmin : minImageCount + 1 < 4294967296)
    (hvalid : 0 < maxImageCount → minImageCount ≤ maxImageCount) :
    swapChainImageCount minImageCount maxImageCount =
      (if 0 < maxImageCount ∧ maxImageCount < minImageCount + 1
       then maxImageCount else minImageCount + 1) ∧
    minImageCount ≤ swapChainImageCount minImageCount maxImageCount ∧
    (0 < maxImageCount →
      swapChainImageCount minImageCount maxImageCount ≤ maxImageCount) ∧
    swapChainImageCount 1 0 = 2 := by
  have hmod : (minImageCount + 1) % 4294967296 = minImageCount + 1 :=
    Nat.mod_eq_of_lt hmin
  unfold swapChainImageCount
  simp only [hmod]
  refine ⟨by trivial, ?_, ?_, by decide⟩
  · by_cases hm : 0 < maxImageCount
    · have := hvalid hm
      split <;> omega
    · split <;> omega
  · intro hm
    have := hvalid hm
    split <;> omega

/-- Witness for `swapChainImageCount_spec` at minImageCount = 1,
maxImageCount = 0 (scenario 3 of the spec). -/
theorem swapChainImageCount_spec_witness :
    swapChainImageCount 1 0 = 2 ∧ 1 ≤ swapChainImageCount 1 0 :=
  ⟨(swapChainImageCount_spec 1 0 (by decide) (fun h => by omega)).2.2.2,
   (swapChainImageCount_spec 1 0 (by decide) (fun h => by omega)).2.1⟩

/-- C6: chooseSwapPresentMode returns mailbox whenever it is in the list of
available modes, and returns FIFO whenever it is not. -/
theorem chooseSwapPresentMode_spec (modes : List VkPresentModeKHR) :
    (VkPresentModeKHR.mailbox ∈ modes →
      chooseSwapPresentMode modes = VkPresentModeKHR.mailbox) ∧
    (VkPresentModeKHR.mailbox ∉ modes →
      chooseSwapPresentMode modes = VkPresentModeKHR.fifo) := by
  induction modes with
  | nil => simp [chooseSwapPresentMode]
  | cons m rest ih =>
    constructor
    · intro hmem
      by_cases hm : m = VkPresentModeKHR.mailbox
      · simp [chooseSwapPresentMode, hm]
      · have hrest : VkPresentModeKHR.mailbox ∈ rest := by
          rcases List.mem_cons.mp hmem with h | h
          · exact absurd h.symm hm
          · exact h
        simp [chooseSwapPresentMode, hm, ih.1 hrest]
    · intro hmem
      have hm : ¬ m = VkPresentModeKHR.mailbox := by
        intro h
        exact hmem (h ▸ List.mem_cons_self m rest)
      have hrest : VkPresentModeKHR.mailbox ∉ rest := by
        intro h
        exact hmem (List.mem_cons_of_mem m h)
      simp [chooseSwapPresentMode, hm, ih.2 hrest]

/-- Witness for `chooseSwapPresentMode_spec`: a list containing mailbox yields
mailbox, and a list lacking it yields FIFO. -/
theorem chooseSwapPresentMode_spec_witness :
    chooseSwapPresentMode [VkPresentModeKHR.fifo, VkPresentModeKHR.mailbox] =
      VkPresentModeKHR.mailbox ∧
    chooseSwapPresentMode [VkPresentModeKHR.fifo, VkPresentModeKHR.immediate] =
      VkPresentModeKHR.fifo :=
  ⟨(chooseSwapPresentMode_spec _).1 (by decide),
   (chooseSwapPresentMode_spec _).2 (by decide)⟩

/-- C7: if currentExtent.width is not the UINT32_MAX sentinel the chosen extent
is currentExtent exactly; otherwise it is the window's pixel size
(WIDTH, HEIGHT) clamped componentwise into [minImageExtent, maxImageExtent]
(and it lies in those bounds whenever the report is well-formed). -/
theorem chooseSwapExtent_spec (capabilities : VkSurfaceCapabilitiesKHR) :
    (capabilities.currentExtent.width ≠ UINT32_MAX →
      chooseSwapExtent capabilities = capabilities.currentExtent) ∧
    (capabilities.currentExtent.width = UINT32_MAX →
      (chooseSwapExtent capabilities).width =
        max capabilities.minImageExtent.width
          (min capabilities.maxImageExtent.width WIDTH) ∧
      (chooseSwapExtent capabilities).height =
        max capabilities.minImageExtent.height
          (min capabilities.maxImageExtent.height HEIGHT) ∧
      (capabilities.minImageExtent.width ≤ capabilities.maxImageExtent.width →
        capabilities.minImageExtent.width ≤ (chooseSwapExtent capabilities).width ∧
        (chooseSwapExtent capabilities).width ≤ capabilities.maxImageExtent.width) ∧
      (capabilities.minImageExtent.height ≤ capabilities.maxImageExtent.height →
        capabilities.minImageExtent.height ≤ (chooseSwapExtent capabilities).height ∧
        (chooseSwapExtent capabilities).height ≤ capabilities.maxImageExtent.height)) := by
  constructor
  · intro h
    simp [chooseSwapExtent, h]
  · intro h
    simp only [chooseSwapExtent, h, ne_eq, not_true_eq_false, if_false]
    refine ⟨by trivial, by trivial, ?_, ?_⟩ <;> intro hb <;> constructor <;> omega

/-- Witness for `chooseSwapExtent_spec`, exercising both the fixed-extent
branch and the clamping branch at concrete capability reports. -/
theorem chooseSwapExtent_spec_witness :
    chooseSwapExtent
      { minImageCount := 1, maxImageCount := 0,
        currentExtent := ⟨1024, 768⟩,
        minImageExtent := ⟨1, 1⟩, maxImageExtent := ⟨4096, 4096⟩ } =
      ⟨1024, 768⟩ ∧
    (chooseSwapExtent
      { minImageCount := 1, maxImageCount := 0,
        currentExtent := ⟨4294967295, 0⟩,
        minImageExtent := ⟨1, 1⟩, maxImageExtent := ⟨640, 640⟩ }).width = 640 :=
  ⟨(chooseSwapExtent_spec _).1 (by decide),
   ((chooseSwapExtent_spec _).2 (by decide)).1.trans (by decide)⟩

/-- Every format returned by the scan loop satisfies the preference test and
comes from the input list. -/
theorem findPreferredFormat_sound (l : List VkSurfaceFormatKHR)
    (f : VkSurfaceFormatKHR) (h : findPreferredFormat l = some f) :
    f ∈ l ∧ isPreferredSurfaceFormat f = true := by
  induction l with
  | nil => simp [findPreferredFormat] at h
  | cons g rest ih =>
    by_cases hg : isPreferredSurfaceFormat g
    · simp [findPreferredFormat, hg] at h
      subst h
      exact ⟨List.mem_cons_self g rest, hg⟩
    · simp [findPreferredFormat, hg] at h
      rcases ih h with ⟨hmem, hpref⟩
      exact ⟨List.mem_cons_of_mem g hmem, hpref⟩

/-- If some format in the list satisfies the preference test, the scan loop
finds one. -/
theorem findPreferredFormat_complete (l : List VkSurfaceFormatKHR)
    (h : ∃ f ∈ l, isPreferredSurfaceFormat f = true) :
    ∃ f, findPreferredFormat l = some f := by
  induction l with
  | nil => simp at h
  | cons g rest ih =>
    by_cases hg : isPreferredSurfaceFormat g
    · exact ⟨g, by simp [findPreferredFormat, hg]⟩
    · rcases h with ⟨f, hmem, hpref⟩
      rcases List.mem_cons.mp hmem with hfg | hmem'
      · subst hfg; exact absurd hpref (by simpa using hg)
      · rcases ih ⟨f, hmem', hpref⟩ with ⟨f', hf'⟩
        exact ⟨f', by simp [findPreferredFormat, hg, hf']⟩

/-- If no format in the list satisfies the preference test, the scan loop
finds none. -/
theorem findPreferredFormat_none (l : List VkSurfaceFormatKHR)
    (h : ∀ f ∈ l, isPreferredSurfaceFormat f = false) :
    findPreferredFormat l = none := by
  induction l with
  | nil => rfl
  | cons g rest ih =>
    have hg : isPreferredSurfaceFormat g = false := h g (List.mem_cons_self g rest)
    simp [findPreferredFormat, hg]
    exact ih (fun f hf => h f (List.mem_cons_of_mem g hf))

/-- C8: for every non-empty list of supported surface formats,
chooseSwapSurfaceFormat returns some element of the list; it returns a pair
with 8-bit BGRA format and non-linear sRGB color space whenever such a pair is
in the list, and otherwise returns the first element of the list. -/
theorem chooseSwapSurfaceFormat_spec (l : List VkSurfaceFormatKHR)
    (hne : l ≠ []) :
    (∃ f, chooseSwapSurfaceFormat l = some f ∧ f ∈ l) ∧
    ((∃ f ∈ l, isPreferredSurfaceFormat f = true) →
      ∃ f, chooseSwapSurfaceFormat l = some f ∧ isPreferredSurfaceFormat f = true) ∧
    ((∀ f ∈ l, isPreferredSurfaceFormat f = false) →
      chooseSwapSurfaceFormat l = l.head?) := by
  refine ⟨?_, ?_, ?_⟩
  · unfold chooseSwapSurfaceFormat
    cases hfind : findPreferredFormat l with
    | some f => exact ⟨f, rfl, (findPreferredFormat_sound l f hfind).1⟩
    | none =>
      cases l with
      | nil => exact absurd rfl hne
      | cons g rest => exact ⟨g, rfl, List.mem_cons_self g rest⟩
  · intro h
    rcases findPreferredFormat_complete l h with ⟨f, hf⟩
    exact ⟨f, by simp [chooseSwapSurfaceFormat, hf],
           (findPreferredFormat_sound l f hf).2⟩
  · intro h
    simp [chooseSwapSurfaceFormat, findPreferredFormat_none l h]

/-- Witness for `chooseSwapSurfaceFormat_spec`: a list containing the preferred
BGRA/sRGB pair yields a preferred pair, and a list lacking it yields its first
element. -/
theorem chooseSwapSurfaceFormat_spec_witness :
    (∃ f, chooseSwapSurfaceFormat [⟨37, 0⟩, ⟨50, 0⟩] = some f ∧
      isPreferredSurfaceFormat f = true) ∧
    chooseSwapSurfaceFormat [⟨37, 0⟩, ⟨44, 1⟩] = some ⟨37, 0⟩ :=
  ⟨(chooseSwapSurfaceFormat_spec [⟨37, 0⟩, ⟨50, 0⟩] (by decide)).2.1
      ⟨⟨50, 0⟩, by decide, by decide⟩,
   ((chooseSwapSurfaceFormat_spec [⟨37, 0⟩, ⟨44, 1⟩] (by decide)).2.2
      (by decide)).trans rfl⟩

/-! ## List helper lemmas used by the synchronizer proofs -/

/-- `getD` after `set` at the written index. -/
theorem getD_set_self {α : Type _} (l : List α) (i : Nat) (a d : α)
    (h : i < l.length) : (l.set i a).getD i d = a := by
  rw [List.getD_eq_getElem?_getD, List.getElem?_set_self h]
  rfl

/-- `getD` after `set` at a different index. -/
theorem getD_set_ne {α : Type _} (l : List α) {i j : Nat} (a d : α)
    (h : i ≠ j) : (l.set i a).getD j d = l.getD j d := by
  rw [List.getD_eq_getElem?_getD, List.getElem?_set_ne h,
    List.getD_eq_getElem?_getD]

/-- `getD` on a replicated list. -/
theorem getD_replicate {α : Type _} (n i : Nat) (a d : α) :
    (List.replicate n a).getD i d = if i < n then a else d := by
  rw [List.getD_eq_getElem?_getD, List.getElem?_replicate]
  split <;> rfl

/-- An in-range `getD` is a member of the list. -/
theorem getD_mem {α : Type _} (l : List α) (i : Nat) (d : α)
    (h : i < l.length) : l.getD i d ∈ l := by
  rw [List.getD_eq_getElem?_getD, List.getElem?_eq_getElem h]
  exact List.getElem_mem h

/-! ## Frame Synchronizer state
(TriangleApplication.h lines 136 and 142-150,
TriangleApplication.cpp lines 530-611 and 1477-1504) -/

/-- The synchronization-relevant mutable state of TriangleApplication
(TriangleApplication.h line 136 `currentFrame`, line 148 `inFlightFences`,
line 150 `imagesInFlight`).  VkFence handles are modelled as Nat, with 0
standing for VK_NULL_HANDLE.  `fenceSignaled` and `pendingGpu` record, per
frame slot, whether that slot's in-flight fence is currently signaled and
whether the GPU still has unfinished work that was submitted with that
fence. -/
structure AppSync where
  currentFrame : Nat
  inFlightFences : List Nat
  fenceSignaled : List Bool
  pendingGpu : List Bool
  imagesInFlight : List Nat
deriving DecidableEq

/-- TriangleApplication.cpp lines 1477-1504 (createSyncObjects) together with
TriangleApplication.h line 136 (`size_t currentFrame = 0`).  The handles
returned by the driver's vkCreateFence calls are abstracted by `fenceHandle`.
The fences are created already signaled (VK_FENCE_CREATE_SIGNALED_BIT,
line 1492) with no work outstanding, and `imagesInFlight` is resized to the
swap-chain image count filled with VK_NULL_HANDLE (line 1484). -/
def createSyncObjects (imageCount : Nat) (fenceHandle : Nat → Nat) : AppSync :=
  { currentFrame := 0
    inFlightFences := (List.range MAX_FRAMES_IN_FLIGHT).map fenceHandle
    fenceSignaled := List.replicate MAX_FRAMES_IN_FLIGHT true
    pendingGpu := List.replicate MAX_FRAMES_IN_FLIGHT false
    imagesInFlight := List.replicate imageCount 0 }

/-- The frame slot whose in-flight fence has handle `h`, if any. -/
def slotOfFence (s : AppSync) (h : Nat) : Option Nat :=
  (List.range MAX_FRAMES_IN_FLIGHT).find?
    (fun j => s.inFlightFences.getD j 0 == h)

/-- vkWaitForFences on the single fence handle `h` with unbounded timeout
(TriangleApplication.cpp lines 534 and 550): the call blocks until the GPU
has finished the work guarded by `h`, so when it returns that fence is
signaled and its slot has no outstanding work. -/
def fenceWait (s : AppSync) (h : Nat) : AppSync :=
  match slotOfFence s h with
  | some j =>
      { s with fenceSignaled := s.fenceSignaled.set j true,
               pendingGpu := s.pendingGpu.set j false }
  | none => s

/-- State after the throttle wait of TriangleApplication.cpp line 534:
`vkWaitForFences(device, 1, &inFlightFences[currentFrame], VK_TRUE,
UINT64_MAX)`. -/
def throttledState (s : AppSync) : AppSync :=
  fenceWait s (s.inFlightFences.getD s.currentFrame 0)

/-- State after the cross-slot hazard check of TriangleApplication.cpp
lines 548-551: if `imagesInFlight[imageIndex] != VK_NULL_HANDLE`, wait on
that fence. -/
def hazardState (s : AppSync) (imageIndex : Nat) : AppSync :=
  let s1 := throttledState s
  if s1.imagesInFlight.getD imageIndex 0 ≠ 0 then
    fenceWait s1 (s1.imagesInFlight.getD imageIndex 0)
  else s1

/-- The externally visible actions performed by one drawFrame call. -/
inductive Ev where
  | waitFence (h : Nat)
  | acquireImage (idx : Nat)
  | claimImage (idx : Nat) (h : Nat)
  | resetFence (h : Nat)
  | submitCmd (idx : Nat) (h : Nat)
  | presentImage (idx : Nat)
deriving DecidableEq

/-- Is this a write to the per-image ownership array? -/
def isClaim : Ev → Bool
  | Ev.claimImage _ _ => true
  | _ => false

/-- TriangleApplication.cpp lines 530-611 (drawFrame): the ordered list of
actions performed by one call, and the resulting state.  The image index is
chosen by the presentation engine (the out-parameter of
vkAcquireNextImageKHR, line 546) and is therefore a parameter here.
In order: the throttle wait on `inFlightFences[currentFrame]` (line 534),
the acquire (line 546), the conditional hazard wait on
`imagesInFlight[imageIndex]` (lines 548-551), the claim
`imagesInFlight[imageIndex] = inFlightFences[currentFrame]` (line 553), the
fence reset (line 580, which leaves `inFlightFences[currentFrame]`
unsignaled), the submit with that fence (line 583, which puts GPU work in
flight on the slot), the present (line 607), and the slot advance
`currentFrame = (currentFrame + 1) % MAX_FRAMES_IN_FLIGHT` (line 610).
The four writes between the hazard wait and the advance touch pairwise
distinct fields, so they are assembled into one record. -/
def drawFrameT (s : AppSync) (imageIndex : Nat) : List Ev × AppSync :=
  let f := s.inFlightFences.getD s.currentFrame 0
  let owner := (throttledState s).imagesInFlight.getD imageIndex 0
  let s2 := hazardState s imageIndex
  let f2 := s2.inFlightFences.getD s2.currentFrame 0
  ([Ev.waitFence f, Ev.acquireImage imageIndex] ++
     (if owner ≠ 0 then [Ev.waitFence owner] else []) ++
     [Ev.claimImage imageIndex f2, Ev.resetFence f2,
      Ev.submitCmd imageIndex f2, Ev.presentImage imageIndex],
   { currentFrame := (s2.currentFrame + 1) % MAX_FRAMES_IN_FLIGHT,
     inFlightFences := s2.inFlightFences,
     fenceSignaled := s2.fenceSignaled.set s2.currentFrame false,
     pendingGpu := s2.pendingGpu.set s2.currentFrame true,
     imagesInFlight := s2.imagesInFlight.set imageIndex f2 })

/-- The state transition of one drawFrame call. -/
def drawFrame (s : AppSync) (imageIndex : Nat) : AppSync :=
  (drawFrameT s imageIndex).2

/-- One step of the combined CPU/GPU system: either the event loop runs one
drawFrame iteration (the presentation engine choosing the image index), or
the GPU finishes the work submitted for one frame slot, signaling that
slot's in-flight fence. -/
inductive GStep where
  | frame (imageIndex : Nat)
  | gpuComplete (slot : Nat)

/-- The transition function of one system step. -/
def runStep (s : AppSync) : GStep → AppSync
  | GStep.frame idx => drawFrame s idx
  | GStep.gpuComplete j =>
      if s.pendingGpu.getD j false then
        { s with fenceSignaled := s.fenceSignaled.set j true,
                 pendingGpu := s.pendingGpu.set j false }
      else s

/-- Run a list of system steps. -/
def runSteps (s : AppSync) (l : List GStep) : AppSync := l.foldl runStep s

/-- The slot (`currentFrame` value) used by each successive drawFrame call of
the main loop (TriangleApplication.cpp lines 799-803), given the image
indices returned by the successive acquires. -/
def frameSlots (s : AppSync) : List Nat → List Nat
  | [] => []
  | idx :: rest => s.currentFrame :: frameSlots (drawFrame s idx) rest

/-- The state after the main loop has run one drawFrame per listed image
index. -/
def runFrames (s : AppSync) (idxs : List Nat) : AppSync :=
  idxs.foldl drawFrame s

/-! ### Basic facts about the synchronizer transitions -/

/-- A fence wait does not move the frame slot. -/
theorem fenceWait_currentFrame (s : AppSync) (h : Nat) :
    (fenceWait s h).currentFrame = s.currentFrame := by
  unfold fenceWait
  cases slotOfFence s h <;> rfl

/-- A fence wait does not change the fence-handle ring. -/
theorem fenceWait_inFlightFences (s : AppSync) (h : Nat) :
    (fenceWait s h).inFlightFences = s.inFlightFences := by
  unfold fenceWait
  cases slotOfFence s h <;> rfl

/-- A fence wait does not change the per-image ownership array. -/
theorem fenceWait_imagesInFlight (s : AppSync) (h : Nat) :
    (fenceWait s h).imagesInFlight = s.imagesInFlight := by
  unfold fenceWait
  cases slotOfFence s h <;> rfl

/-- The hazard phase does not move the frame slot. -/
theorem hazardState_currentFrame (s : AppSync) (idx : Nat) :
    (hazardState s idx).currentFrame = s.currentFrame := by
  simp only [hazardState, throttledState]
  split <;> simp [fenceWait_currentFrame]

/-- The hazard phase does not change the fence-handle ring. -/
theorem hazardState_inFlightFences (s : AppSync) (idx : Nat) :
    (hazardState s idx).inFlightFences = s.inFlightFences := by
  simp only [hazardState, throttledState]
  split <;> simp [fenceWait_inFlightFences]

/-- The hazard phase does not change the per-image ownership array. -/
theorem hazardState_imagesInFlight (s : AppSync) (idx : Nat) :
    (hazardState s idx).imagesInFlight = s.imagesInFlight := by
  simp only [hazardState, throttledState]
  split <;> simp [fenceWait_imagesInFlight]

/-- Line 610: each drawFrame call advances the slot by one modulo
MAX_FRAMES_IN_FLIGHT. -/
theorem drawFrame_currentFrame (s : AppSync) (idx : Nat) :
    (drawFrame s idx).currentFrame =
      (s.currentFrame + 1) % MAX_FRAMES_IN_FLIGHT := by
  unfold drawFrame drawFrameT
  simp [hazardState_currentFrame]

/-- A found slot index is a valid slot. -/
theorem slotOfFence_lt (s : AppSync) (h j : Nat)
    (hj : slotOfFence s h = some j) : j < MAX_FRAMES_IN_FLIGHT := by
  have hmem := List.mem_of_find?_eq_some hj
  exact List.mem_range.mp hmem

/-- The synchronization invariant maintained by the frame loop: the slot-ring
lists keep their lengths, `currentFrame` stays a valid slot, the fence-handle
ring is never modified, every per-image ownership entry is VK_NULL_HANDLE or
one of the per-slot in-flight fences, and a slot's fence is unsignaled only
while that slot has submitted-but-unfinished GPU work. -/
def SyncInv (imageCount : Nat) (fences : List Nat) (s : AppSync) : Prop :=
  fences.length = MAX_FRAMES_IN_FLIGHT ∧
  s.inFlightFences = fences ∧
  s.currentFrame < MAX_FRAMES_IN_FLIGHT ∧
  s.fenceSignaled.length = MAX_FRAMES_IN_FLIGHT ∧
  s.pendingGpu.length = MAX_FRAMES_IN_FLIGHT ∧
  s.imagesInFlight.length = imageCount ∧
  (∀ j, s.imagesInFlight.getD j 0 = 0 ∨ s.imagesInFlight.getD j 0 ∈ fences) ∧
  (∀ i, s.fenceSignaled.getD i true = false → s.pendingGpu.getD i false = true)

/-- The state produced by createSyncObjects satisfies the invariant. -/
theorem syncInv_init (imageCount : Nat) (fenceHandle : Nat → Nat) :
    SyncInv imageCount ((List.range MAX_FRAMES_IN_FLIGHT).map fenceHandle)
      (createSyncObjects imageCount fenceHandle) := by
  refine ⟨by simp, rfl, by simp [createSyncObjects, MAX_FRAMES_IN_FLIGHT],
    by simp [createSyncObjects], by simp [createSyncObjects],
    by simp [createSyncObjects], ?_, ?_⟩
  · intro j
    left
    rw [createSyncObjects]
    rw [getD_replicate]
    split <;> rfl
  · intro i hfalse
    exfalso
    rw [createSyncObjects] at hfalse
    rw [getD_replicate] at hfalse
    revert hfalse
    split <;> simp

/-- Setting one slot's fence to signaled with no outstanding work preserves
the invariant. -/
theorem syncInv_signalSlot (imageCount : Nat) (fences : List Nat)
    (s : AppSync) (j : Nat) (hs : SyncInv imageCount fences s) :
    SyncInv imageCount fences
      { s with fenceSignaled := s.fenceSignaled.set j true,
               pendingGpu := s.pendingGpu.set j false } := by
  obtain ⟨h0, h1, h2, h3, h4, h5, h6, h7⟩ := hs
  refine ⟨h0, h1, h2, by simp [h3], by simp [h4], h5, h6, ?_⟩
  intro i hfalse
  by_cases hij : j = i
  · subst hij
    by_cases hlen : j < s.fenceSignaled.length
    · rw [getD_set_self _ _ _ _ hlen] at hfalse
      exact absurd hfalse (by simp)
    · rw [List.set_eq_of_length_le (Nat.le_of_not_lt hlen)] at hfalse
      rw [List.set_eq_of_length_le (by omega : s.pendingGpu.length ≤ j)]
      exact h7 j hfalse
  · rw [getD_set_ne _ _ _ hij] at hfalse
    rw [getD_set_ne _ _ _ hij]
    exact h7 i hfalse

/-- A fence wait preserves the invariant. -/
theorem syncInv_fenceWait (imageCount : Nat) (fences : List Nat)
    (s : AppSync) (h : Nat) (hs : SyncInv imageCount fences s) :
    SyncInv imageCount fences (fenceWait s h) := by
  unfold fenceWait
  cases hj : slotOfFence s h with
  | some j => exact syncInv_signalSlot imageCount fences s j hs
  | none => exact hs

/-- The throttle and hazard phases preserve the invariant. -/
theorem syncInv_hazardState (imageCount : Nat) (fences : List Nat)
    (s : AppSync) (idx : Nat) (hs : SyncInv imageCount fences s) :
    SyncInv imageCount fences (hazardState s idx) := by
  simp only [hazardState, throttledState]
  split
  · exact syncInv_fenceWait imageCount fences _ _
      (syncInv_fenceWait imageCount fences s _ hs)
  · exact syncInv_fenceWait imageCount fences s _ hs

/-- drawFrame written as a single record built from the post-hazard state. -/
theorem drawFrame_eq (s : AppSync) (idx : Nat) :
    drawFrame s idx =
      { currentFrame :=
          ((hazardState s idx).currentFrame + 1) % MAX_FRAMES_IN_FLIGHT,
        inFlightFences := (hazardState s idx).inFlightFences,
        fenceSignaled := (hazardState s idx).fenceSignaled.set
          (hazardState s idx).currentFrame false,
        pendingGpu := (hazardState s idx).pendingGpu.set
          (hazardState s idx).currentFrame true,
        imagesInFlight := (hazardState s idx).imagesInFlight.set idx
          ((hazardState s idx).inFlightFences.getD
            (hazardState s idx).currentFrame 0) } := rfl

/-- A drawFrame call preserves the invariant. -/
theorem syncInv_drawFrame (imageCount : Nat) (fences : List Nat)
    (s : AppSync) (idx : Nat) (hs : SyncInv imageCount fences s) :
    SyncInv imageCount fences (drawFrame s idx) := by
  have h2 := syncInv_hazardState imageCount fences s idx hs
  rw [drawFrame_eq]
  set t := hazardState s idx with ht
  obtain ⟨hflen, h1, hcf, hsig, hpen, himg, hown, hfence⟩ := h2
  refine ⟨hflen, h1, Nat.mod_lt _ (by decide), by simp [hsig], by simp [hpen],
    by simp [himg], ?_, ?_⟩
  · intro j
    by_cases hji : idx = j
    · subst hji
      by_cases hlen : idx < t.imagesInFlight.length
      · rw [getD_set_self _ _ _ _ hlen]
        right
        rw [h1]
        exact getD_mem fences t.currentFrame 0 (by omega)
      · rw [List.set_eq_of_length_le (Nat.le_of_not_lt hlen)]
        exact hown idx
    · rw [getD_set_ne _ _ _ hji]
      exact hown j
  · intro i hfalse
    by_cases hci : t.currentFrame = i
    · subst hci
      rw [getD_set_self _ _ _ _ (by omega)]
    · rw [getD_set_ne _ _ _ hci] at hfalse
      rw [getD_set_ne _ _ _ hci]
      exact hfence i hfalse

/-- Each system step preserves the invariant. -/
theorem syncInv_runStep (imageCount : Nat) (fences : List Nat)
    (s : AppSync) (st : GStep) (hs : SyncInv imageCount fences s) :
    SyncInv imageCount fences (runStep s st) := by
  cases st with
  | frame idx => exact syncInv_drawFrame imageCount fences s idx hs
  | gpuComplete j =>
    show SyncInv imageCount fences
      (if s.pendingGpu.getD j false = true then
        { s with fenceSignaled := s.fenceSignaled.set j true,
                 pendingGpu := s.pendingGpu.set j false }
       else s)
    split
    · exact syncInv_signalSlot imageCount fences s j hs
    · exact hs

/-- The invariant holds along every execution. -/
theorem syncInv_runSteps (imageCount : Nat) (fences : List Nat)
    (l : List GStep) (s : AppSync) (hs : SyncInv imageCount fences s) :
    SyncInv imageCount fences (runSteps s l) := by
  induction l generalizing s with
  | nil => exact hs
  | cons st rest ih =>
    exact ih (runStep s st) (syncInv_runStep imageCount fences s st hs)

/-- The throttle wait does not change the per-image ownership array. -/
theorem throttledState_imagesInFlight (s : AppSync) :
    (throttledState s).imagesInFlight = s.imagesInFlight :=
  fenceWait_imagesInFlight s _

/-- With a non-null owner, the drawFrame trace is fully determined. -/
theorem drawFrameT_trace_of_owner (s : AppSync) (idx : Nat)
    (hOwner : s.imagesInFlight.getD idx 0 ≠ 0) :
    (drawFrameT s idx).1 =
      [Ev.waitFence (s.inFlightFences.getD s.currentFrame 0),
       Ev.acquireImage idx,
       Ev.waitFence (s.imagesInFlight.getD idx 0),
       Ev.claimImage idx (s.inFlightFences.getD s.currentFrame 0),
       Ev.resetFence (s.inFlightFences.getD s.currentFrame 0),
       Ev.submitCmd idx (s.inFlightFences.getD s.currentFrame 0),
       Ev.presentImage idx] := by
  simp only [drawFrameT, throttledState_imagesInFlight,
    hazardState_inFlightFences, hazardState_currentFrame]
  rw [if_pos hOwner]
  rfl

/-- C1: in every frame-loop iteration, if the per-image guard reference for
the acquired image index is non-null, the iteration performs a blocking fence
wait on exactly that guard strictly before the Claim step that overwrites the
reference with the current slot's guard, and the trace contains exactly one
such overwrite. -/
theorem hazard_wait_precedes_claim (s : AppSync) (idx : Nat)
    (hOwner : s.imagesInFlight.getD idx 0 ≠ 0) :
    ∃ i j : Nat, i < j ∧
      ((drawFrameT s idx).1)[i]? =
        some (Ev.waitFence (s.imagesInFlight.getD idx 0)) ∧
      ((drawFrameT s idx).1)[j]? =
        some (Ev.claimImage idx (s.inFlightFences.getD s.currentFrame 0)) ∧
      ((drawFrameT s idx).1.filter isClaim).length = 1 := by
  refine ⟨2, 3, by omega, ?_, ?_, ?_⟩ <;>
    rw [drawFrameT_trace_of_owner s idx hOwner] <;>
    simp [isClaim]

/-- Witness for `hazard_wait_precedes_claim` at a concrete state in which
image 0 is still owned by slot 0's fence (handle 1) while slot 1 draws. -/
theorem hazard_wait_precedes_claim_witness :
    ∃ i j : Nat, i < j ∧
      ((drawFrameT
          { currentFrame := 1, inFlightFences := [1, 2],
            fenceSignaled := [false, true], pendingGpu := [true, false],
            imagesInFlight := [1, 0, 0] } 0).1)[i]? =
        some (Ev.waitFence 1) ∧
      ((drawFrameT
          { currentFrame := 1, inFlightFences := [1, 2],
            fenceSignaled := [false, true], pendingGpu := [true, false],
            imagesInFlight := [1, 0, 0] } 0).1)[j]? =
        some (Ev.claimImage 0 2) ∧
      ((drawFrameT
          { currentFrame := 1, inFlightFences := [1, 2],
            fenceSignaled := [false, true], pendingGpu := [true, false],
            imagesInFlight := [1, 0, 0] } 0).1.filter isClaim).length = 1 :=
  hazard_wait_precedes_claim
    { currentFrame := 1, inFlightFences := [1, 2],
      fenceSignaled := [false, true], pendingGpu := [true, false],
      imagesInFlight := [1, 0, 0] } 0 (by decide)

/-- Along the main loop, slot usage starting at a valid slot advances by one
modulo MAX_FRAMES_IN_FLIGHT per iteration. -/
theorem frameSlots_eq (idxs : List Nat) :
    ∀ s : AppSync, s.currentFrame < MAX_FRAMES_IN_FLIGHT →
      frameSlots s idxs = (List.range idxs.length).map
        (fun k => (s.currentFrame + k) % MAX_FRAMES_IN_FLIGHT) := by
  induction idxs with
  | nil => intro s _; rfl
  | cons idx rest ih =>
    intro s hs
    have h1 := drawFrame_currentFrame s idx
    have h2 : (drawFrame s idx).currentFrame < MAX_FRAMES_IN_FLIGHT := by
      rw [h1]; exact Nat.mod_lt _ (by decide)
    show s.currentFrame :: frameSlots (drawFrame s idx) rest = _
    rw [ih (drawFrame s idx) h2, h1]
    rw [List.length_cons, List.range_succ_eq_map]
    rw [List.map_cons, List.map_map]
    have hfun :
        (fun k => ((s.currentFrame + 1) % MAX_FRAMES_IN_FLIGHT + k) %
            MAX_FRAMES_IN_FLIGHT) =
          ((fun k => (s.currentFrame + k) % MAX_FRAMES_IN_FLIGHT) ∘
            Nat.succ) := by
      funext k
      simp only [Function.comp, MAX_FRAMES_IN_FLIGHT]
      omega
    rw [hfun]
    have hhead : s.currentFrame =
        (s.currentFrame + 0) % MAX_FRAMES_IN_FLIGHT := by
      simp only [MAX_FRAMES_IN_FLIGHT] at hs ⊢
      omega
    exact congrArg (· :: _) hhead ▸ rfl

/-- The slot counter after running the main loop equals its start plus the
iteration count, modulo MAX_FRAMES_IN_FLIGHT. -/
theorem runFrames_currentFrame (idxs : List Nat) :
    ∀ s : AppSync, s.currentFrame < MAX_FRAMES_IN_FLIGHT →
      (runFrames s idxs).currentFrame =
        (s.currentFrame + idxs.length) % MAX_FRAMES_IN_FLIGHT := by
  induction idxs with
  | nil =>
    intro s hs
    show s.currentFrame = _
    simp only [List.length_nil, MAX_FRAMES_IN_FLIGHT] at hs ⊢
    omega
  | cons idx rest ih =>
    intro s hs
    have h1 := drawFrame_currentFrame s idx
    have h2 : (drawFrame s idx).currentFrame < MAX_FRAMES_IN_FLIGHT := by
      rw [h1]; exact Nat.mod_lt _ (by decide)
    show (runFrames (drawFrame s idx) rest).currentFrame = _
    rw [ih (drawFrame s idx) h2, h1]
    simp only [List.length_cons, MAX_FRAMES_IN_FLIGHT]
    omega

/-- C2: the frame slot used in iteration k (0-based) of the main loop equals
k mod N with N = MAX_FRAMES_IN_FLIGHT = 2, the slot advancing by one (mod N)
each iteration; in a 5-iteration run the counter has advanced 5 times
(currentFrame ends at 5 mod 2) and the slot usage sequence is 0,1,0,1,0. -/
theorem frame_slot_sequence (imageCount : Nat) (fenceHandle : Nat → Nat)
    (idxs : List Nat) :
    MAX_FRAMES_IN_FLIGHT = 2 ∧
    (∀ (s : AppSync) (i : Nat), (drawFrame s i).currentFrame =
      (s.currentFrame + 1) % MAX_FRAMES_IN_FLIGHT) ∧
    frameSlots (createSyncObjects imageCount fenceHandle) idxs =
      (List.range idxs.length).map (fun k => k % MAX_FRAMES_IN_FLIGHT) ∧
    (runFrames (createSyncObjects imageCount fenceHandle) idxs).currentFrame =
      idxs.length % MAX_FRAMES_IN_FLIGHT ∧
    (idxs.length = 5 →
      frameSlots (createSyncObjects imageCount fenceHandle) idxs =
        [0, 1, 0, 1, 0]) := by
  have hlt : (createSyncObjects imageCount fenceHandle).currentFrame <
      MAX_FRAMES_IN_FLIGHT := by
    show 0 < MAX_FRAMES_IN_FLIGHT
    decide
  have hmain := frameSlots_eq idxs (createSyncObjects imageCount fenceHandle) hlt
  have hrun := runFrames_currentFrame idxs
    (createSyncObjects imageCount fenceHandle) hlt
  have hzero : (createSyncObjects imageCount fenceHandle).currentFrame = 0 := rfl
  rw [hzero] at hmain hrun
  simp only [Nat.zero_add] at hmain hrun
  refine ⟨rfl, drawFrame_currentFrame, hmain, hrun, ?_⟩
  intro h5
  rw [hmain, h5]
  decide

/-- Witness for `frame_slot_sequence`: a concrete 5-iteration run over a
3-image chain uses slots 0,1,0,1,0. -/
theorem frame_slot_sequence_witness :
    frameSlots (createSyncObjects 3 (fun i => i + 1)) [0, 1, 2, 0, 1] =
      [0, 1, 0, 1, 0] :=
  (frame_slot_sequence 3 (fun i => i + 1) [0, 1, 2, 0, 1]).2.2.2.2 rfl

/-- C9: after createSyncObjects every per-slot in-flight fence is in the
signaled state (VK_FENCE_CREATE_SIGNALED_BIT), so the first throttle wait
ever performed for a slot returns immediately instead of blocking; and along
every execution a slot's fence is unsignaled only while that slot has
submitted-but-unfinished GPU work (equivalently, a slot with no outstanding
work always has a signaled fence, so its throttle wait cannot block). -/
theorem inFlight_fence_signaled_spec (imageCount : Nat)
    (fenceHandle : Nat → Nat) (steps : List GStep) :
    (∀ i, i < MAX_FRAMES_IN_FLIGHT →
      (createSyncObjects imageCount fenceHandle).fenceSignaled.getD i false
        = true) ∧
    (∀ i, (runSteps (createSyncObjects imageCount fenceHandle)
        steps).fenceSignaled.getD i true = false →
      (runSteps (createSyncObjects imageCount fenceHandle)
        steps).pendingGpu.getD i false = true) ∧
    (∀ i, (runSteps (createSyncObjects imageCount fenceHandle)
        steps).pendingGpu.getD i false = false →
      (runSteps (createSyncObjects imageCount fenceHandle)
        steps).fenceSignaled.getD i true = true) := by
  have hinv := syncInv_runSteps imageCount _ steps _
    (syncInv_init imageCount fenceHandle)
  have hfence := hinv.2.2.2.2.2.2.2
  refine ⟨?_, hfence, ?_⟩
  · intro i hi
    show (List.replicate MAX_FRAMES_IN_FLIGHT true).getD i false = true
    rw [getD_replicate]
    simp [hi]
  · intro i hp
    cases hb : (runSteps (createSyncObjects imageCount fenceHandle)
        steps).fenceSignaled.getD i true with
    | false => rw [hfence i hb] at hp; exact absurd hp (by simp)
    | true => rfl

/-- Witness for `inFlight_fence_signaled_spec`: slot 0's fence is signaled at
startup, and after one frame iteration its unsignaled fence is matched by
outstanding GPU work. -/
theorem inFlight_fence_signaled_spec_witness :
    (createSyncObjects 3 (fun i => i + 1)).fenceSignaled.getD 0 false
      = true ∧
    (runSteps (createSyncObjects 3 (fun i => i + 1))
      [GStep.frame 0]).pendingGpu.getD 0 false = true :=
  ⟨(inFlight_fence_signaled_spec 3 (fun i => i + 1) []).1 0 (by decide),
   (inFlight_fence_signaled_spec 3 (fun i => i + 1) [GStep.frame 0]).2.1 0
     (by decide)⟩

/-- C10: the per-image ownership array (imagesInFlight) has length equal to
the swap-chain image count, starts with every entry VK_NULL_HANDLE, and
along every execution each entry stays either VK_NULL_HANDLE or one of the
N per-slot in-flight fences; a frame iteration overwrites only the entry of
the image index it acquired (the Claim step), and GPU completion steps never
touch the array. -/
theorem imagesInFlight_spec (imageCount : Nat) (fenceHandle : Nat → Nat)
    (steps : List GStep) :
    (createSyncObjects imageCount fenceHandle).imagesInFlight =
      List.replicate imageCount 0 ∧
    (runSteps (createSyncObjects imageCount fenceHandle)
      steps).imagesInFlight.length = imageCount ∧
    (∀ j, (runSteps (createSyncObjects imageCount fenceHandle)
        steps).imagesInFlight.getD j 0 = 0 ∨
      (runSteps (createSyncObjects imageCount fenceHandle)
        steps).imagesInFlight.getD j 0 ∈
        (createSyncObjects imageCount fenceHandle).inFlightFences) ∧
    (∀ (s : AppSync) (idx j : Nat), j ≠ idx →
      (drawFrame s idx).imagesInFlight.getD j 0 =
        s.imagesInFlight.getD j 0) ∧
    (∀ (s : AppSync) (j : Nat),
      (runStep s (GStep.gpuComplete j)).imagesInFlight = s.imagesInFlight) := by
  have hinv := syncInv_runSteps imageCount _ steps _
    (syncInv_init imageCount fenceHandle)
  refine ⟨rfl, hinv.2.2.2.2.2.1, hinv.2.2.2.2.2.2.1, ?_, ?_⟩
  · intro s idx j hji
    rw [drawFrame_eq]
    show ((hazardState s idx).imagesInFlight.set idx _).getD j 0 = _
    rw [getD_set_ne _ _ _ (fun h => hji h.symm)]
    rw [hazardState_imagesInFlight]
  · intro s j
    show (if s.pendingGpu.getD j false = true then
        { s with fenceSignaled := s.fenceSignaled.set j true,
                 pendingGpu := s.pendingGpu.set j false }
       else s).imagesInFlight = s.imagesInFlight
    split <;> rfl

/-- Witness for `imagesInFlight_spec`: a frame acquiring image 0 leaves the
ownership entry of image 1 unchanged. -/
theorem imagesInFlight_spec_witness :
    (drawFrame (createSyncObjects 3 (fun i => i + 1)) 0).imagesInFlight.getD
        1 0 =
      (createSyncObjects 3 (fun i => i + 1)).imagesInFlight.getD 1 0 :=
  (imagesInFlight_spec 3 (fun i => i + 1) []).2.2.2.1 _ 0 1 (by decide)

/-! ## Shutdown ordering
(TriangleApplication.cpp lines 122-127, 798-809 and 814-860) -/

/-- The application-level events of run(): main-loop frame iterations, the
device-idle wait, and the destruction calls of cleanup(), in program
order. -/
inductive AppEv where
  | frameIteration (k : Nat)
  | deviceWaitIdle
  | destroyRenderFinishedSem (i : Nat)
  | destroyImageAvailableSem (i : Nat)
  | destroyFence (i : Nat)
  | destroyCommandPool
  | destroyFramebuffer (i : Nat)
  | destroyPipeline
  | destroyPipelineLayout
  | destroyRenderPass
  | destroyImageView (i : Nat)
  | destroySwapchain
  | destroyDevice
  | destroySurface
  | destroyInstance
deriving DecidableEq

/-- Does this event destroy a semaphore, a fence, or the command pool? -/
def isSyncDestroy : AppEv → Bool
  | AppEv.destroyRenderFinishedSem _ => true
  | AppEv.destroyImageAvailableSem _ => true
  | AppEv.destroyFence _ => true
  | AppEv.destroyCommandPool => true
  | _ => false

/-- Is this event a frame iteration of the main loop? -/
def isFrameIteration : AppEv → Bool
  | AppEv.frameIteration _ => true
  | _ => false

/-- TriangleApplication.cpp lines 814-860 (cleanup), in program order: per
slot destroy renderFinishedSemaphore[i], imageAvailableSemaphore[i] and
inFlightFences[i] (lines 816-820), then the command pool (line 822), the
framebuffers (lines 825-827), the pipeline, its layout and the render pass
(lines 829-833), the image views (lines 835-837), the swap chain, the
device, the surface and the instance (lines 840-855). -/
def cleanupTrace (numImages : Nat) : List AppEv :=
  ((List.range MAX_FRAMES_IN_FLIGHT).map (fun i =>
      [AppEv.destroyRenderFinishedSem i, AppEv.destroyImageAvailableSem i,
       AppEv.destroyFence i])).flatten ++
  [AppEv.destroyCommandPool] ++
  (List.range numImages).map AppEv.destroyFramebuffer ++
  [AppEv.destroyPipeline, AppEv.destroyPipelineLayout,
   AppEv.destroyRenderPass] ++
  (List.range numImages).map AppEv.destroyImageView ++
  [AppEv.destroySwapchain, AppEv.destroyDevice, AppEv.destroySurface,
   AppEv.destroyInstance]

/-- TriangleApplication.cpp lines 798-809 (mainLoop): one drawFrame per loop
iteration until the window reports close (k iterations in total), then
vkDeviceWaitIdle (line 806) blocks until the device has drained all queued
work. -/
def mainLoopTrace (k : Nat) : List AppEv :=
  (List.range k).map AppEv.frameIteration ++ [AppEv.deviceWaitIdle]

/-- TriangleApplication.cpp lines 122-127 (run): mainLoop, then cleanup. -/
def runTrace (k numImages : Nat) : List AppEv :=
  mainLoopTrace k ++ cleanupTrace numImages

/-- C3: for a shutdown after k main-loop iterations, the device-idle wait
sits at position k of the run trace; no destruction of a semaphore, fence or
the command pool occurs at or before that position; no frame iteration
occurs after it; and all 3·N + 1 sync-object/command-pool destructions do
occur (after the wait). -/
theorem shutdown_wait_precedes_sync_destroy (k numImages : Nat) :
    (runTrace k numImages)[k]? = some AppEv.deviceWaitIdle ∧
    (∀ e ∈ (runTrace k numImages).take (k + 1), isSyncDestroy e = false) ∧
    (∀ e ∈ (runTrace k numImages).drop (k + 1), isFrameIteration e = false) ∧
    ((runTrace k numImages).filter isSyncDestroy).length =
      3 * MAX_FRAMES_IN_FLIGHT + 1 := by
  have hlen : (mainLoopTrace k).length = k + 1 := by
    simp [mainLoopTrace]
  refine ⟨?_, ?_, ?_, ?_⟩
  · rw [runTrace, List.getElem?_append_left (by omega)]
    rw [mainLoopTrace,
      List.getElem?_append_right (by simp : ((List.range k).map AppEv.frameIteration).length ≤ k)]
    simp
  · intro e he
    rw [runTrace, List.take_left' hlen] at he
    rw [mainLoopTrace] at he
    rcases List.mem_append.mp he with h | h
    · rcases List.mem_map.mp h with ⟨i, _, rfl⟩
      rfl
    · rw [List.mem_singleton.mp h]
      rfl
  · intro e he
    rw [runTrace, List.drop_left' hlen] at he
    cases e <;> first
      | rfl
      | (exfalso; rw [cleanupTrace] at he; simp at he)
  · have h1 : ((List.range k).map AppEv.frameIteration).filter isSyncDestroy
        = [] := by
      rw [List.filter_eq_nil_iff]
      intro a ha
      rcases List.mem_map.mp ha with ⟨i, _, rfl⟩
      simp [isFrameIteration, isSyncDestroy]
    have h2 : ((List.range numImages).map AppEv.destroyFramebuffer).filter
        isSyncDestroy = [] := by
      rw [List.filter_eq_nil_iff]
      intro a ha
      rcases List.mem_map.mp ha with ⟨i, _, rfl⟩
      simp [isSyncDestroy]
    have h3 : ((List.range numImages).map AppEv.destroyImageView).filter
        isSyncDestroy = [] := by
      rw [List.filter_eq_nil_iff]
      intro a ha
      rcases List.mem_map.mp ha with ⟨i, _, rfl⟩
      simp [isSyncDestroy]
    rw [runTrace, mainLoopTrace, cleanupTrace]
    simp [List.filter_append, h1, h2, h3, isSyncDestroy, MAX_FRAMES_IN_FLIGHT]
    decide

/-- Witness for `shutdown_wait_precedes_sync_destroy` at a 2-iteration run
over a 3-image chain: the idle wait sits at position 2, the frame iteration
before it is no sync destruction, and the command-pool destruction after it
is no frame iteration. -/
theorem shutdown_wait_precedes_sync_destroy_witness :
    (runTrace 2 3)[2]? = some AppEv.deviceWaitIdle ∧
    isSyncDestroy (AppEv.frameIteration 0) = false ∧
    isFrameIteration AppEv.destroyCommandPool = false :=
  ⟨(shutdown_wait_precedes_sync_destroy 2 3).1,
   (shutdown_wait_precedes_sync_destroy 2 3).2.1 (AppEv.frameIteration 0)
     (by decide),
   (shutdown_wait_precedes_sync_destroy 2 3).2.2.1 AppEv.destroyCommandPool
     (by decide)⟩

/-! ## Status-code handling in the frame loop
(TriangleApplication.cpp lines 546, 583-585 and 607) -/

/-- The VkResult status codes relevant to the frame loop. -/
inductive VkResult where
  | success
  | suboptimalKHR
  | errorOutOfDateKHR
  | errorDeviceLost
deriving DecidableEq

/-- TriangleApplication.cpp lines 530-611 (drawFrame) with the status codes
of the three driver calls made explicit: `acquireRes` is returned by
vkAcquireNextImageKHR (line 546), `submitRes` by vkQueueSubmit (line 583)
and `presentRes` by vkQueuePresentKHR (line 607).  The code stores and tests
neither `acquireRes` nor `presentRes` — both calls' return values are
discarded — while a non-success `submitRes` throws
"failed to submit draw command buffer!" (lines 583-585), which propagates
out of mainLoop and run to main() and terminates the process.  An
`Except.error` therefore models fatal termination of the run. -/
def drawFrameChecked (s : AppSync) (acquireRes : VkResult) (imageIndex : Nat)
    (submitRes presentRes : VkResult) : Except String AppSync :=
  if submitRes ≠ VkResult.success then
    Except.error "failed to submit draw command buffer!"
  else
    Except.ok (drawFrame s imageIndex)

/-- C4 counterexample: when vkAcquireNextImageKHR reports the swapchain
stale (VK_ERROR_OUT_OF_DATE_KHR) or suboptimal, or vkQueuePresentKHR does,
the frame completes normally and the run continues — the program does not
terminate, refuting the claim that a stale/suboptimal acquire or present
report is treated as fatal. -/
theorem stale_swapchain_not_fatal :
    (drawFrameChecked (createSyncObjects 3 (fun i => i + 1))
      VkResult.errorOutOfDateKHR 0 VkResult.success
      VkResult.success).isOk = true ∧
    (drawFrameChecked (createSyncObjects 3 (fun i => i + 1))
      VkResult.suboptimalKHR 0 VkResult.success
      VkResult.success).isOk = true ∧
    (drawFrameChecked (createSyncObjects 3 (fun i => i + 1))
      VkResult.success 0 VkResult.success
      VkResult.errorOutOfDateKHR).isOk = true := by
  refine ⟨rfl, rfl, rfl⟩

/-- C4 (amended): the frame loop ignores the status codes of acquire and
present entirely — the outcome of an iteration is independent of them, so a
stale/suboptimal report from either call causes neither recovery nor
termination; only a failing vkQueueSubmit is fatal to the run. -/
theorem acquire_present_results_ignored (s : AppSync) (a a' : VkResult)
    (idx : Nat) (sub p p' : VkResult) :
    drawFrameChecked s a idx sub p = drawFrameChecked s a' idx sub p' ∧
    (sub = VkResult.success →
      drawFrameChecked s a idx sub p = Except.ok (drawFrame s idx)) ∧
    (sub ≠ VkResult.success →
      drawFrameChecked s a idx sub p =
        Except.error "failed to submit draw command buffer!") := by
  refine ⟨rfl, ?_, ?_⟩ <;> intro h <;> simp [drawFrameChecked, h]

/-- Witness for `acquire_present_results_ignored`, exercising the successful
submit and the failing submit at concrete inputs. -/
theorem acquire_present_results_ignored_witness :
    drawFrameChecked (createSyncObjects 3 (fun i => i + 1))
        VkResult.errorOutOfDateKHR 0 VkResult.success VkResult.suboptimalKHR =
      Except.ok (drawFrame (createSyncObjects 3 (fun i => i + 1)) 0) ∧
    drawFrameChecked (createSyncObjects 3 (fun i => i + 1))
        VkResult.success 0 VkResult.errorDeviceLost VkResult.success =
      Except.error "failed to submit draw command buffer!" :=
  ⟨(acquire_present_results_ignored (createSyncObjects 3 (fun i => i + 1))
      VkResult.errorOutOfDateKHR VkResult.success 0 VkResult.success
      VkResult.suboptimalKHR VkResult.success).2.1 rfl,
   (acquire_present_results_ignored (createSyncObjects 3 (fun i => i + 1))
      VkResult.success VkResult.success 0 VkResult.errorDeviceLost
      VkResult.success VkResult.success).2.2 (by decide)⟩

end VulkanTriangle
